import Mathlib

/-!
Shallow embedding of `src/main.py` (DostyqTV Telegram support bot), class
`DostyqTVBot`: the fallback keyword responder, the Gemini generation client
wrapper, the SQLite persistence operations (`save_user`, `create_ticket`,
the `/stats` aggregates), the ticket command / callback dispatch, and the
startup check in `run`.

Conventions of the embedding:
* Python strings are Lean `String`s; `word in message` (substring test) is
  `strIn`; `str.lower()` is `pyLower`, modelled character-wise on the
  alphabets the bot's keyword table uses (ASCII Latin and Cyrillic,
  including Ё); on every other character it is the identity.
* The SQLite tables are Lean lists of row structures.  `INSERT OR REPLACE`
  deletes any row with the same primary key and inserts a fresh row, with
  unlisted columns taking their column DEFAULT (for `users.created_at`,
  `CURRENT_TIMESTAMP`, i.e. the call's time).  `AUTOINCREMENT` ids are a
  `nextId` counter starting at 1; `cursor.lastrowid` is the id just used.
* Timestamps are `Nat` (seconds); `date(t)` is `t / 86400`.
* Network I/O in `_call_gemini` is an oracle `NetOutcome` parameter; a
  Python exception escaping `_call_gemini` is `Except.error`.
* `os.getenv` results are `Option String`; Python truthiness of such a
  value (`if not self.X`) is `pyTruthy`.
-/

/-- `isPrefixL a b` : the char list `a` is a prefix of `b` (Python-style,
used to implement the substring test of `in`). -/
def isPrefixL : List Char → List Char → Bool
  | [], _ => true
  | _ :: _, [] => false
  | a :: as, b :: bs => a == b && isPrefixL as bs

/-- `containsSub needle hay` : `needle` occurs contiguously in `hay`. -/
def containsSub (needle : List Char) : List Char → Bool
  | [] => isPrefixL needle []
  | c :: rest => isPrefixL needle (c :: rest) || containsSub needle rest

/-- Python `needle in hay` on strings: substring containment. -/
def strIn (needle hay : String) : Bool :=
  containsSub needle.data hay.data

/-- Character-wise model of Python `str.lower()` on the alphabets occurring
in the bot's keyword table: ASCII `A`–`Z` (65–90) map to `a`–`z`,
Cyrillic `А`–`Я` (1040–1071) map to `а`–`я`, `Ё` (1025) maps to `ё` (1105);
every other character is unchanged. -/
def pyCharLower (c : Char) : Char :=
  let n := c.toNat
  if 65 ≤ n ∧ n ≤ 90 then Char.ofNat (n + 32)
  else if 1040 ≤ n ∧ n ≤ 1071 then Char.ofNat (n + 32)
  else if n = 1025 then Char.ofNat 1105
  else c

/-- Model of Python `str.lower()`: `pyCharLower` applied to every character. -/
def pyLower (s : String) : String :=
  ⟨s.data.map pyCharLower⟩

/-- Keyword set of the schedule category (`main.py` line 180). -/
def scheduleKeywords : List String := ["программа", "расписание", "передач"]

/-- Keyword set of the quality/complaint category (line 183). -/
def qualityKeywords : List String := ["качество", "плохо", "тормозит", "зависает"]

/-- Keyword set of the channel-setup category (line 186). -/
def setupKeywords : List String := ["настроить", "канал", "найти"]

/-- Keyword set of the contact category (line 189). -/
def contactKeywords : List String := ["контакт", "телефон", "связаться"]

/-- Keyword set of the advertising category (line 192). -/
def advertKeywords : List String := ["реклама", "размещение"]

/-- Canned answer of the schedule category (line 181). -/
def scheduleAnswer : String :=
  "📺 Полное расписание программ доступно на сайте dostyq.tv в разделе \x27Каталог\x27"

/-- Canned answer of the quality category (line 184). -/
def qualityAnswer : String :=
  "🔧 При проблемах с качеством, попробуйте перезагрузить приставку. Если не помогло, свяжитесь с поддержкой: +7 771 300 05 02, +7 702 300 05 01"

/-- Canned answer of the channel-setup category (line 187). -/
def setupAnswer : String :=
  "⚙️ Настройка канала DostyqTV:\n\n📍 Найдите нас на позиции 44 в кабельных сетях. Если не получается, обратитесь к вашему оператору кабельного ТВ."

/-- Canned answer of the contact category (line 190). -/
def contactAnswer : String :=
  "📞 Контакты DostyqTV:\n\n☎️ Поддержка: +7 777 013 3812\n📧 Email: support@dostyq.tv\n🌐 Сайт: https://dostyq.tv"

/-- Canned answer of the advertising category (line 193). -/
def advertAnswer : String :=
  "📢 По вопросам размещения рекламы:\n\n📧 reklama@dostyq.tv\n☎️ +7 (727) 24-24-25"

/-- Generic greeting/help prompt returned when no keyword set matches (line 196). -/
def genericAnswer : String :=
  "👋 Здравствуйте! Я помогу вам с вопросами по телеканалу DostyqTV.\n\n🔍 Используйте /help для просмотра доступных команд или просто опишите вашу проблему."

/-- `any(word in message_lower for word in words)`. -/
def anyKeyword (words : List String) (messageLower : String) : Bool :=
  words.any (fun word => strIn word messageLower)

/-- `DostyqTVBot.get_fallback_response` (`main.py` lines 175–196): lowercase
the message and test the five keyword sets in source order, returning the
first matching canned answer, else the generic greeting. -/
def get_fallback_response (user_message : String) : String :=
  let message_lower := pyLower user_message
  if anyKeyword scheduleKeywords message_lower then scheduleAnswer
  else if anyKeyword qualityKeywords message_lower then qualityAnswer
  else if anyKeyword setupKeywords message_lower then setupAnswer
  else if anyKeyword contactKeywords message_lower then contactAnswer
  else if anyKeyword advertKeywords message_lower then advertAnswer
  else genericAnswer

/-- The five (keyword set, canned answer) pairs in the source's priority
order: schedule, quality, setup, contact, advertising. -/
def fallbackPriorityTable : List (List String × String) :=
  [(scheduleKeywords, scheduleAnswer),
   (qualityKeywords, qualityAnswer),
   (setupKeywords, setupAnswer),
   (contactKeywords, contactAnswer),
   (advertKeywords, advertAnswer)]

/-- Spec-side formulation of the fallback policy (§4.1): return the canned
answer of the FIRST set in priority order containing a matching substring
of the lowercased message, else the default. -/
def firstMatchingAnswer (dflt : String) (messageLower : String) :
    List (List String × String) → String
  | [] => dflt
  | (words, answer) :: rest =>
    if anyKeyword words messageLower then answer
    else firstMatchingAnswer dflt messageLower rest

/-- Some category of the fallback table matches the (lowercased) message. -/
def matchesSomeCategory (messageLower : String) : Bool :=
  fallbackPriorityTable.any (fun p => anyKeyword p.1 messageLower)

/-- Python truthiness of an `os.getenv` result: `None` and the empty
string are falsy, any other string is truthy. -/
def pyTruthy : Option String → Bool
  | none => false
  | some s => !(s == "")

/-- Outcome of the single outbound HTTP call in `_call_gemini`, as seen by
the caller: either a reply with an HTTP status and the (optional) list of
candidate texts extracted from the parsed JSON body — `none` models a body
with no `candidates` key — or a raised network/parsing exception. -/
inductive NetOutcome where
  | reply (status : Nat) (candidates : Option (List String))
  | raised
deriving Repr, DecidableEq

/-- `DostyqTVBot._call_gemini` (`main.py` lines 142–173), with the network
oracle made explicit.  On HTTP 200 with a non-empty candidate list it
returns the first candidate's text; on 200 with a missing or empty
candidate list, or on a non-200 status, it returns the fallback response;
a raised exception propagates to the caller (`Except.error`). -/
def call_gemini (user_message : String) (net : NetOutcome) : Except Unit String :=
  match net with
  | .raised => .error ()
  | .reply status candidates =>
    if status = 200 then
      match candidates with
      | some (text :: _) => .ok text
      | some [] => .ok (get_fallback_response user_message)
      | none => .ok (get_fallback_response user_message)
    else .ok (get_fallback_response user_message)

/-- `DostyqTVBot.get_ai_response` (`main.py` lines 112–140): if
`GEMINI_API_KEY` is falsy, return the fallback response immediately;
otherwise call `_call_gemini` inside `try`/`except Exception`, returning
the fallback response when an exception is raised.  Total: never raises. -/
def get_ai_response (user_message : String) (geminiApiKey : Option String)
    (net : NetOutcome) : String :=
  if !(pyTruthy geminiApiKey) then get_fallback_response user_message
  else
    match call_gemini user_message net with
    | .ok text => text
    | .error _ => get_fallback_response user_message

/-- A failing outcome of the generation call, per the spec's taxonomy:
non-success HTTP status, missing or empty candidate list, or a raised
network/parsing exception. -/
def netFailure : NetOutcome → Prop
  | .raised => True
  | .reply status candidates =>
    status ≠ 200 ∨ candidates = none ∨ candidates = some []

/-- A row of the `users` table (`main.py` lines 75–84).  `id` is the
PRIMARY KEY; `created_at` and `last_activity` DEFAULT to
`CURRENT_TIMESTAMP`. -/
structure UserRow where
  id : Int
  username : Option String
  first_name : Option String
  last_name : Option String
  created_at : Nat
  last_activity : Nat
deriving Repr, DecidableEq

/-- The sender identity delivered by the transport (`update.effective_user`). -/
structure TgUser where
  id : Int
  username : Option String
  first_name : Option String
  last_name : Option String
deriving Repr, DecidableEq

/-- `DostyqTVBot.save_user` (`main.py` lines 198–209): `INSERT OR REPLACE
INTO users (id, username, first_name, last_name, last_activity)` with
`datetime.now()` for `last_activity`.  `INSERT OR REPLACE` deletes any row
with the conflicting primary key and inserts a fresh row; `created_at` is
not in the column list, so it takes its DEFAULT `CURRENT_TIMESTAMP`, i.e.
the call's time `now`. -/
def save_user (now : Nat) (user : TgUser) (users : List UserRow) : List UserRow :=
  users.filter (fun r => !(r.id == user.id)) ++
    [⟨user.id, user.username, user.first_name, user.last_name, now, now⟩]

/-- A row of the `tickets` table (`main.py` lines 87–97).  `id` is
AUTOINCREMENT; `status` DEFAULTs to `open`; `resolved_at` is nullable. -/
structure TicketRow where
  id : Nat
  user_id : Int
  message : String
  status : String
  created_at : Nat
  resolved_at : Option Nat
  category : String
deriving Repr, DecidableEq

/-- The `tickets` table with its AUTOINCREMENT sequence (next id to
assign; SQLite starts at 1 and never reuses ids). -/
structure TicketsTable where
  rows : List TicketRow
  nextId : Nat
deriving Repr, DecidableEq

/-- The default of `create_ticket`'s `category` parameter (`main.py` line 211). -/
def defaultTicketCategory : String := "general"

/-- `DostyqTVBot.create_ticket` (`main.py` lines 211–225): `INSERT INTO
tickets (user_id, message, category)`; `status` takes its DEFAULT `open`,
`created_at` the DEFAULT `CURRENT_TIMESTAMP`, `resolved_at` is NULL.
Returns `cursor.lastrowid` (the id just assigned) and the new table. -/
def create_ticket (now : Nat) (user_id : Int) (message : String)
    (category : String) (tbl : TicketsTable) : Nat × TicketsTable :=
  let ticket_id := tbl.nextId
  (ticket_id,
   ⟨tbl.rows ++ [⟨ticket_id, user_id, message, "open", now, none, category⟩],
    tbl.nextId + 1⟩)

/-- The fixed placeholder stored by `ticket_command` (`main.py` line 330). -/
def ticketPlaceholderMessage : String := "Пользователь запросил создание тикета."

/-- The user-visible confirmation text of `ticket_command` (lines 334–338). -/
def ticketResponseText (ticket_id : Nat) : String :=
  "📋 Ваше обращение #" ++ toString ticket_id ++ " создано!\n\n" ++
    "Наши специалисты скоро свяжутся с вами. " ++
    "Пожалуйста, опишите вашу проблему подробнее в следующем сообщении."

/-- `DostyqTVBot.ticket_command` (`main.py` lines 324–344): creates a
ticket for the caller with the fixed placeholder message and the default
category, and replies with the confirmation text.  Returns (reply text,
ticket id, new table). -/
def ticket_command (now : Nat) (userId : Int) (tbl : TicketsTable) :
    String × Nat × TicketsTable :=
  let message_text := ticketPlaceholderMessage
  let r := create_ticket now userId message_text defaultTicketCategory tbl
  (ticketResponseText r.1, r.1, r.2)

/-- The `faq` dictionary (`main.py` lines 62–67), in insertion order. -/
def faq : List (String × String) :=
  [("Как настроить канал?",
    "Для настройки канала обратитесь к оператору кабельного ТВ или найдите канал DostyqTV на позиции 44"),
   ("Проблемы с качеством",
    "Проверьте силу сигнала, перезагрузите приставку. Если проблема остается - звоните +7 771 300 05 02, +7 702 300 05 01"),
   ("Расписание программ",
    "Полное расписание доступно на сайте dostyq.tv в разделе \"Каталог\""),
   ("Реклама на канале",
    "По вопросам размещения рекламы: reklama@dostyq.tv или +7 (727) 24-24-25")]

/-- Python `self.faq[key]` (the keys used all exist). -/
def faqAnswer (key : String) : String :=
  (((faq.find? (fun p => p.1 == key)).map Prod.snd).getD "")

/-- `knowledge_base['контакты']` fields used by `handle_callback` (lines 53–58). -/
def kbContactPhone : String := "+7 777 013 3812"

/-- `knowledge_base['контакты']['email']`. -/
def kbContactEmail : String := "support@dostyq.tv"

/-- `knowledge_base['контакты']['сайт']`. -/
def kbContactSite : String := "https://dostyq.tv"

/-- `DostyqTVBot.handle_callback` (`main.py` lines 274–299): dispatch on
the callback identifier.  Returns the reply text (none when no branch
matches — Python falls through silently) and the tickets table after the
call; only `create_ticket` touches the store, by delegating to
`ticket_command`. -/
def handle_callback (now : Nat) (userId : Int) (callback_data : String)
    (tbl : TicketsTable) : Option String × TicketsTable :=
  if callback_data == "schedule" then
    (some ("📅 Расписание программ:\n\n" ++ faqAnswer "Расписание программ"), tbl)
  else if callback_data == "tech_support" then
    (some ("🔧 Техническая поддержка:\n\n" ++ faqAnswer "Проблемы с качеством"), tbl)
  else if callback_data == "contacts" then
    (some ("📞 Контакты:\n\nТелефон: " ++ kbContactPhone ++ "\nEmail: " ++
      kbContactEmail ++ "\nСайт: " ++ kbContactSite), tbl)
  else if callback_data == "faq" then
    (some ("📋 Часто задаваемые вопросы:\n\n" ++
      String.intercalate "\n\n"
        (faq.map (fun p => "❓ " ++ p.1 ++ "\n✅ " ++ p.2))), tbl)
  else if callback_data == "create_ticket" then
    let r := ticket_command now userId tbl
    (some r.1, r.2.2)
  else (none, tbl)

/-- The persisted store: the `users` and `tickets` tables (the `stats`
table is declared but never read or written by any handler). -/
structure Database where
  users : List UserRow
  tickets : TicketsTable
deriving Repr, DecidableEq

/-- `SELECT COUNT(*) FROM users` (`main.py` line 357). -/
def countUsers (db : Database) : Nat := db.users.length

/-- `SELECT COUNT(*) FROM tickets WHERE status = "open"` (line 360). -/
def countOpenTickets (db : Database) : Nat :=
  (db.tickets.rows.filter (fun t => t.status == "open")).length

/-- `SELECT COUNT(*) FROM tickets WHERE date(created_at) = date("now")`
(line 363); `date` of a timestamp is its day number. -/
def countTicketsToday (db : Database) (today : Nat) : Nat :=
  (db.tickets.rows.filter (fun t => t.created_at / 86400 == today)).length

/-- The permission-denied reply of `get_stats` (`main.py` line 350). -/
def statsDeniedMessage : String := "❌ У вас нет прав для просмотра статистики"

/-- The statistics reply text built by `get_stats` (lines 366–374). -/
def statsText (total_users open_tickets today_tickets : Nat) (nowStr : String) : String :=
  "\n📊 Статистика DostyqTV Bot:\n\n👥 Пользователи: " ++ toString total_users ++
    "\n🎫 Открытые обращения: " ++ toString open_tickets ++
    "\n📋 Обращения за сегодня: " ++ toString today_tickets ++
    "\n\n📅 Дата: " ++ nowStr ++ "\n        "

/-- `DostyqTVBot.get_stats` (`main.py` lines 347–377): if the caller's id
is not in `ADMIN_IDS`, reply with the denial message and return before any
store access; otherwise run the three COUNT queries and reply with the
statistics text.  The second component counts the SELECT queries executed. -/
def get_stats (adminIds : List Int) (callerId : Int) (db : Database)
    (today : Nat) (nowStr : String) : String × Nat :=
  if !(adminIds.contains callerId) then (statsDeniedMessage, 0)
  else
    let total_users := countUsers db
    let open_tickets := countOpenTickets db
    let today_tickets := countTicketsToday db today
    (statsText total_users open_tickets today_tickets nowStr, 3)

/-- Outcome of `DostyqTVBot.run` (`main.py` lines 412–435): either a fatal
early return on a missing credential (before the application is built), or
the application is built, handlers installed, and polling started. -/
inductive RunOutcome where
  | fatalNoToken
  | fatalNoKey
  | started
deriving Repr, DecidableEq

/-- `DostyqTVBot.run`: `if not self.BOT_TOKEN: log; return`, then
`if not self.GEMINI_API_KEY: log; return`, then build the application and
run polling. -/
def run (botToken geminiApiKey : Option String) : RunOutcome :=
  if !(pyTruthy botToken) then .fatalNoToken
  else if !(pyTruthy geminiApiKey) then .fatalNoKey
  else .started

theorem charToNat_ofNat (n : Nat) (h : n < 55296) : (Char.ofNat n).toNat = n := by
  have hv : n.isValidChar := Or.inl h
  unfold Char.ofNat
  rw [dif_pos hv]
  rfl

theorem pyCharLower_eq_self (c : Char)
    (h1 : ¬(65 ≤ c.toNat ∧ c.toNat ≤ 90))
    (h2 : ¬(1040 ≤ c.toNat ∧ c.toNat ≤ 1071))
    (h3 : ¬(c.toNat = 1025)) : pyCharLower c = c := by
  unfold pyCharLower
  rw [if_neg h1, if_neg h2, if_neg h3]

theorem pyCharLower_idem (c : Char) : pyCharLower (pyCharLower c) = pyCharLower c := by
  by_cases h1 : 65 ≤ c.toNat ∧ c.toNat ≤ 90
  · have e : pyCharLower c = Char.ofNat (c.toNat + 32) := by
      unfold pyCharLower; rw [if_pos h1]
    have ht := charToNat_ofNat (c.toNat + 32) (by omega)
    rw [e]
    exact pyCharLower_eq_self _ (by rw [ht]; omega) (by rw [ht]; omega) (by rw [ht]; omega)
  · by_cases h2 : 1040 ≤ c.toNat ∧ c.toNat ≤ 1071
    · have e : pyCharLower c = Char.ofNat (c.toNat + 32) := by
        unfold pyCharLower; rw [if_neg h1, if_pos h2]
      have ht := charToNat_ofNat (c.toNat + 32) (by omega)
      rw [e]
      exact pyCharLower_eq_self _ (by rw [ht]; omega) (by rw [ht]; omega) (by rw [ht]; omega)
    · by_cases h3 : c.toNat = 1025
      · have e : pyCharLower c = Char.ofNat 1105 := by
          unfold pyCharLower; rw [if_neg h1, if_neg h2, if_pos h3]
        have ht := charToNat_ofNat 1105 (by omega)
        rw [e]
        exact pyCharLower_eq_self _ (by rw [ht]; omega) (by rw [ht]; omega)
          (by rw [ht]; omega)
      · rw [pyCharLower_eq_self c h1 h2 h3, pyCharLower_eq_self c h1 h2 h3]

theorem pyLower_idem (s : String) : pyLower (pyLower s) = pyLower s := by
  have hf : pyCharLower ∘ pyCharLower = pyCharLower := funext pyCharLower_idem
  show String.mk ((s.data.map pyCharLower).map pyCharLower) =
    String.mk (s.data.map pyCharLower)
  rw [List.map_map, hf]

theorem gfr_congr_of_lower_eq (m m' : String) (h : pyLower m = pyLower m') :
    get_fallback_response m = get_fallback_response m' := by
  unfold get_fallback_response
  rw [h]

/-- C1: `get_fallback_response` tests the lowercased message against the
five keyword sets in the fixed priority order schedule, quality, setup,
contact, advertising, and returns the canned answer of the first set with
a matching substring; in particular a message containing a schedule
keyword always gets the schedule answer, even if later categories also
match. -/
theorem fallback_first_matching_category (m : String) :
    get_fallback_response m =
      firstMatchingAnswer genericAnswer (pyLower m) fallbackPriorityTable ∧
    (anyKeyword scheduleKeywords (pyLower m) = true →
      get_fallback_response m = scheduleAnswer) := by
  constructor
  · rfl
  · intro h
    simp [get_fallback_response, h]

/-- Witness for C1 at a message containing both a schedule keyword and a
quality keyword (in upper case): the schedule answer wins. -/
theorem fallback_first_matching_category_witness :
    anyKeyword scheduleKeywords (pyLower "РАСПИСАНИЕ плохо показывает") = true ∧
    get_fallback_response "РАСПИСАНИЕ плохо показывает" = scheduleAnswer ∧
    anyKeyword qualityKeywords (pyLower "РАСПИСАНИЕ плохо показывает") = true :=
  ⟨by decide,
   (fallback_first_matching_category "РАСПИСАНИЕ плохо показывает").2 (by decide),
   by decide⟩

/-- C7: the fallback responder is total and never returns the empty
string, and when no keyword set matches it returns the generic
greeting/help prompt. -/
theorem fallback_total_nonempty (m : String) :
    get_fallback_response m ≠ "" ∧
    (matchesSomeCategory (pyLower m) = false →
      get_fallback_response m = genericAnswer) := by
  constructor
  · simp only [get_fallback_response]
    split_ifs <;> decide
  · intro h
    simp only [matchesSomeCategory, fallbackPriorityTable, List.any_cons,
      List.any_nil, Bool.or_eq_false_iff] at h
    simp [get_fallback_response, h.1, h.2.1, h.2.2.1, h.2.2.2.1, h.2.2.2.2.1]

/-- Witness for C7 at a message matching no keyword set. -/
theorem fallback_total_nonempty_witness :
    get_fallback_response "hello there" ≠ "" ∧
    get_fallback_response "hello there" = genericAnswer :=
  ⟨(fallback_total_nonempty "hello there").1,
   (fallback_total_nonempty "hello there").2 (by decide)⟩

/-- C9: the fallback responder is case-insensitive:
`get_fallback_response m = get_fallback_response (pyLower m)` for every
message, and any two messages with the same lowercasing (in particular,
variants differing only in letter case) get the same answer. -/
theorem fallback_case_insensitive (m m' : String) (h : pyLower m = pyLower m') :
    get_fallback_response m = get_fallback_response (pyLower m) ∧
    get_fallback_response m = get_fallback_response m' :=
  ⟨gfr_congr_of_lower_eq m (pyLower m) (pyLower_idem m).symm,
   gfr_congr_of_lower_eq m m' h⟩

/-- Witness for C9: an upper-case and a lower-case variant of the same
word get the same (setup-category) answer. -/
theorem fallback_case_insensitive_witness :
    get_fallback_response "КАНАЛ" = get_fallback_response (pyLower "КАНАЛ") ∧
    get_fallback_response "КАНАЛ" = get_fallback_response "канал" :=
  fallback_case_insensitive "КАНАЛ" "канал" (by decide)

/-- C2: whenever the outbound generation call fails — non-success HTTP
status, missing or empty candidate list, or a raised network/parsing
exception — `get_ai_response` returns exactly the fallback response for
the message (and, being a total `String`-valued function, raises nothing
to its caller), for every credential configuration. -/
theorem ai_response_falls_back_on_failure (m : String) (key : Option String)
    (net : NetOutcome) (h : netFailure net) :
    get_ai_response m key net = get_fallback_response m := by
  unfold get_ai_response
  cases hk : pyTruthy key
  · simp
  · simp only [Bool.not_true, Bool.false_eq_true, if_false]
    cases net with
    | raised => rfl
    | reply status candidates =>
      rcases h with hs | hc | hc
      · simp [call_gemini, hs]
      · subst hc
        by_cases hs : status = 200 <;> simp [call_gemini, hs]
      · subst hc
        by_cases hs : status = 200 <;> simp [call_gemini, hs]

/-- Witness for C2: HTTP 500, HTTP 200 with an empty or missing candidate
list, and a raised exception each yield the fallback answer. -/
theorem ai_response_falls_back_on_failure_witness :
    get_ai_response "реклама" (some "key") (.reply 500 (some ["x"])) =
      get_fallback_response "реклама" ∧
    get_ai_response "реклама" (some "key") (.reply 200 (some [])) =
      get_fallback_response "реклама" ∧
    get_ai_response "реклама" (some "key") (.reply 200 none) =
      get_fallback_response "реклама" ∧
    get_ai_response "реклама" (some "key") .raised =
      get_fallback_response "реклама" :=
  ⟨ai_response_falls_back_on_failure _ _ _ (Or.inl (by decide)),
   ai_response_falls_back_on_failure _ _ _ (Or.inr (Or.inr rfl)),
   ai_response_falls_back_on_failure _ _ _ (Or.inr (Or.inl rfl)),
   ai_response_falls_back_on_failure _ _ _ trivial⟩

/-- C3: with no generation credential configured (`GEMINI_API_KEY` unset),
`get_ai_response` returns exactly `get_fallback_response` of the same
message, whatever the network would have done. -/
theorem ai_response_no_credential_delegates (m : String) (net : NetOutcome) :
    get_ai_response m none net = get_fallback_response m := rfl

/-- C5: `create_ticket` (called with the default category) returns the
store-assigned next id, appends exactly one row with status `open` and
category `general`, and a subsequent call — with any arguments — returns a
strictly larger id. -/
theorem create_ticket_open_row_increasing_ids (now : Nat) (uid : Int)
    (msg : String) (tbl : TicketsTable) (now2 : Nat) (uid2 : Int)
    (msg2 : String) (cat2 : String) :
    (create_ticket now uid msg defaultTicketCategory tbl).1 = tbl.nextId ∧
    (create_ticket now uid msg defaultTicketCategory tbl).2.rows =
      tbl.rows ++ [⟨tbl.nextId, uid, msg, "open", now, none, "general"⟩] ∧
    (create_ticket now2 uid2 msg2 cat2
        (create_ticket now uid msg defaultTicketCategory tbl).2).1 >
      (create_ticket now uid msg defaultTicketCategory tbl).1 :=
  ⟨rfl, rfl, Nat.lt_succ_self tbl.nextId⟩

/-- C8: a missing bot token or generation API key makes `run` return
before the application is built (never reaching the started state); a
missing bot token in particular hits the first fatal check. -/
theorem run_fatal_on_missing_credential (botToken geminiApiKey : Option String)
    (h : botToken = none ∨ geminiApiKey = none) :
    run botToken geminiApiKey ≠ RunOutcome.started ∧
    (botToken = none → run botToken geminiApiKey = RunOutcome.fatalNoToken) := by
  constructor
  · rcases h with h | h
    · subst h
      show RunOutcome.fatalNoToken ≠ RunOutcome.started
      decide
    · subst h
      unfold run
      cases ht : pyTruthy botToken <;> decide
  · intro h'
    subst h'
    rfl

/-- Witness for C8 with the bot token absent. -/
theorem run_fatal_on_missing_credential_witness :
    run none (some "gemini-key") ≠ RunOutcome.started ∧
    run none (some "gemini-key") = RunOutcome.fatalNoToken :=
  ⟨(run_fatal_on_missing_credential none (some "gemini-key") (Or.inl rfl)).1,
   (run_fatal_on_missing_credential none (some "gemini-key") (Or.inl rfl)).2 rfl⟩

/-- C4 fails on the code: `INSERT OR REPLACE` replaces the whole row, so
the unlisted `created_at` column takes its DEFAULT again instead of being
preserved.  Concretely: a user row created at time 5, refreshed by
`save_user` at time 10, ends with `created_at = 10`, not 5. -/
theorem save_user_resets_created_at :
    save_user 10 ⟨1, some "u", some "f", some "l"⟩
        [⟨1, some "u", some "f", some "l", 5, 5⟩] =
      [⟨1, some "u", some "f", some "l", 10, 10⟩] ∧
    (10 : Nat) ≠ 5 := by decide

/-- C4 amended: `save_user` is an idempotent upsert keyed by user id that
replaces the user's whole row — refreshing username, the name fields,
`last_activity` AND `created_at` to the call's time — while leaving every
other user's row unchanged (in both directions); after two calls with the
same identity exactly one row for that id remains, carrying the later
call's time. -/
theorem save_user_upsert_amended (now later : Nat) (u : TgUser)
    (users : List UserRow) :
    (save_user later u (save_user now u users)).filter
        (fun r => r.id == u.id) =
      [⟨u.id, u.username, u.first_name, u.last_name, later, later⟩] ∧
    (∀ r ∈ save_user later u (save_user now u users),
      r.id ≠ u.id → r ∈ users) ∧
    (∀ r ∈ users, r.id ≠ u.id → r ∈ save_user later u (save_user now u users)) := by
  refine ⟨?_, ?_, ?_⟩
  · simp [save_user, List.filter_append, List.filter_filter]
  · intro r hr hne
    simp only [save_user, List.mem_append, List.mem_filter,
      List.mem_singleton] at hr
    rcases hr with ⟨⟨hr3, -⟩ | hr4, -⟩ | hr2
    · exact hr3
    · exact absurd (by rw [hr4]) hne
    · exact absurd (by rw [hr2]) hne
  · intro r hr hne
    have hb : (r.id == u.id) = false := by simpa using hne
    simp [save_user, List.mem_append, List.mem_filter, hb, hr]

/-- Witness for the amended C4: user 2 saved twice (times 10 then 20) in a
table holding an unrelated row for user 3: one row for user 2 remains with
both timestamps 20, and user 3's row survives untouched. -/
theorem save_user_upsert_amended_witness :
    (save_user 20 ⟨2, some "b", none, none⟩
        (save_user 10 ⟨2, some "b", none, none⟩
          [⟨3, some "x", none, none, 1, 1⟩])).filter
        (fun r => r.id == (⟨2, some "b", none, none⟩ : TgUser).id) =
      [⟨2, some "b", none, none, 20, 20⟩] ∧
    (⟨3, some "x", none, none, 1, 1⟩ : UserRow) ∈
      save_user 20 ⟨2, some "b", none, none⟩
        (save_user 10 ⟨2, some "b", none, none⟩
          [⟨3, some "x", none, none, 1, 1⟩]) :=
  ⟨(save_user_upsert_amended 10 20 ⟨2, some "b", none, none⟩
      [⟨3, some "x", none, none, 1, 1⟩]).1,
   (save_user_upsert_amended 10 20 ⟨2, some "b", none, none⟩
      [⟨3, some "x", none, none, 1, 1⟩]).2.2
     ⟨3, some "x", none, none, 1, 1⟩ (by decide) (by decide)⟩

/-- C6: a statistics request from a caller whose id is not in the admin
allow-list gets the permission-denied reply and executes zero store
queries; conversely any call that performs a store query came from a
listed caller. -/
theorem stats_denied_for_non_admin (adminIds : List Int) (callerId : Int)
    (db : Database) (today : Nat) (nowStr : String) (h : callerId ∉ adminIds) :
    get_stats adminIds callerId db today nowStr = (statsDeniedMessage, 0) ∧
    (∀ (a : List Int) (c : Int) (d : Database) (t : Nat) (s : String),
      (get_stats a c d t s).2 ≠ 0 → c ∈ a) := by
  constructor
  · simp [get_stats, h]
  · intro a c d t s hq
    by_cases hm : c ∈ a
    · exact hm
    · simp [get_stats, hm] at hq

/-- Witness for C6: caller 7 against allow-list `[5]`. -/
theorem stats_denied_for_non_admin_witness :
    get_stats [5] 7 ⟨[], ⟨[], 1⟩⟩ 0 "01.01.2026 00:00" =
      (statsDeniedMessage, 0) :=
  (stats_denied_for_non_admin [5] 7 ⟨[], ⟨[], 1⟩⟩ 0 "01.01.2026 00:00"
    (by decide)).1

/-- C10: every ticket row added by the `/ticket` command or by the
`create_ticket` callback button carries the fixed placeholder text as its
message and `general` as its category — on no dispatch path is any other
message text stored in a ticket. -/
theorem ticket_paths_store_placeholder (now : Nat) (userId : Int)
    (callback_data : String) (tbl : TicketsTable) :
    (∀ r ∈ (ticket_command now userId tbl).2.2.rows,
      r ∈ tbl.rows ∨
        (r.message = ticketPlaceholderMessage ∧ r.category = "general")) ∧
    (∀ r ∈ (handle_callback now userId callback_data tbl).2.rows,
      r ∈ tbl.rows ∨
        (r.message = ticketPlaceholderMessage ∧ r.category = "general")) := by
  have hT : ∀ r ∈ (ticket_command now userId tbl).2.2.rows,
      r ∈ tbl.rows ∨
        (r.message = ticketPlaceholderMessage ∧ r.category = "general") := by
    intro r hr
    simp only [ticket_command, create_ticket, List.mem_append,
      List.mem_singleton] at hr
    rcases hr with hr | hr
    · exact Or.inl hr
    · subst hr; exact Or.inr ⟨rfl, rfl⟩
  refine ⟨hT, ?_⟩
  intro r hr
  unfold handle_callback at hr
  split_ifs at hr
  · exact Or.inl hr
  · exact Or.inl hr
  · exact Or.inl hr
  · exact Or.inl hr
  · exact hT r hr
  · exact Or.inl hr

/-- Witness for C10: the `create_ticket` callback on an empty table yields
exactly the placeholder row (so the added row is not in the old table and
carries the placeholder message and the `general` category). -/
theorem ticket_paths_store_placeholder_witness :
    (⟨1, 7, ticketPlaceholderMessage, "open", 5, none, "general"⟩ : TicketRow) ∈
        (⟨[], 1⟩ : TicketsTable).rows ∨
      ((⟨1, 7, ticketPlaceholderMessage, "open", 5, none, "general"⟩ :
          TicketRow).message = ticketPlaceholderMessage ∧
        (⟨1, 7, ticketPlaceholderMessage, "open", 5, none, "general"⟩ :
          TicketRow).category = "general") :=
  (ticket_paths_store_placeholder 5 7 "create_ticket" ⟨[], 1⟩).2
    ⟨1, 7, ticketPlaceholderMessage, "open", 5, none, "general"⟩ (by decide)

